import Mathlib

/-!
Shallow embedding of monitor_sizes.py (size-availability extraction engine).

Pages are modelled as data: every DOM read the script performs (attribute
lookup, text content, visibility) is a field of the page model; lookup
failures and absent attributes are modelled as Option.none, matching the
script's blanket try/except-continue policy.  Interactive selections are
modelled as explicit state transitions on a selection state, and the page's
dynamic behaviour (what is visible after a given combination of selections)
is an oracle function from selection states to page views.  Every
select-type interaction (click on an option tile / native select) is
recorded in a log.
-/

set_option maxRecDepth 8000

namespace SizeMonitor

/-! ### String helpers (substring / word-boundary / digit tests) -/

/-- Substring test on character lists: pat occurs somewhere in the haystack. -/
def containsSub (pat : List Char) : List Char → Bool
  | [] => pat.isEmpty
  | c :: t => pat.isPrefixOf (c :: t) || containsSub pat t

/-- Substring test on strings. -/
def containsStr (s pat : String) : Bool := containsSub pat.toList s.toList

/-- Whitespace for the purposes of strip (ASCII model of Python strip). -/
def isSpaceChar (c : Char) : Bool :=
  c = ' ' || c = '\t' || c = '\n' || c = '\r'

/-- Python str.strip on ASCII strings, as a kernel-reducible definition. -/
def pyStrip (s : String) : String :=
  String.mk (((s.toList.dropWhile isSpaceChar).reverse.dropWhile isSpaceChar).reverse)

/-- Python str.lower on ASCII strings, as a kernel-reducible definition. -/
def pyLower (s : String) : String := String.mk (s.toList.map Char.toLower)

/-- Word characters, ASCII model of the regex word class used by the
whole-word size-keyword search. -/
def isWordChar (c : Char) : Bool := c.isAlphanum || c = '_'

def optIsWord : Option Char → Bool
  | none => false
  | some c => isWordChar c

/-- Search for pat preceded and followed by a non-word character (or the
string edge), tracking the previous character; models a whole-word regex
search such as the one in group_is_size (line 139). -/
def hasWordAux (pat : List Char) : Option Char → List Char → Bool
  | _, [] => false
  | prev, c :: rest =>
    (!optIsWord prev && pat.isPrefixOf (c :: rest)
      && !optIsWord ((c :: rest).drop pat.length).head?)
      || hasWordAux pat (some c) rest

/-- Whole-word, case-insensitive occurrence of pat in s. -/
def hasWordCI (s pat : String) : Bool := hasWordAux pat.toList none (pyLower s).toList

/-- Python str.isdigit on ASCII strings: non-empty and all digits. -/
def isDigitStr (s : String) : Bool := !s.toList.isEmpty && s.toList.all (·.isDigit)

/-- Python truthiness-or on two optional strings followed by strip, as in
(el.get_attribute(x) or el.text_content() or "").strip(). -/
def pyOrStrip (a b : Option String) : String :=
  match a with
  | some s => if s = "" then pyStrip (b.getD "") else pyStrip s
  | none => pyStrip (b.getD "")

/-! ### Configuration constants (lines 23-38 of the source) -/

def UNION_MODE : Bool := true
def MAX_OPTIONS_PER_GROUP : Nat := 6
def MAX_PAIRWISE_CHECKS : Nat := 24

/-! ### DOM model -/

/-- A candidate add-to-cart control examined by the enabled-visibility helper:
its visibility plus the disabled and aria-disabled attributes. -/
structure Control where
  visible : Bool
  disabled : Option String
  ariaDisabled : Option String
deriving DecidableEq

/-- What the availability decision predicate can observe of the page at one
moment: whether any notify-me caption is visible, whether any out-of-stock
caption is visible, and the add-to-cart controls. -/
structure PageView where
  notifyVisible : Bool
  oosVisible : Bool
  addControls : List Control
deriving DecidableEq

/-- One input.radio-box__input element inside a radio-tile group, with the
attributes read by the static reader (lines 153-174). -/
structure RadioInput where
  dataUserValue : Option String
  labelForText : Option String
  unavailableAttr : Option String
  disabledAttr : Option String
  ariaDisabled : Option String
  className : Option String
deriving DecidableEq

/-- One option element of the native select inside a dropdown group. -/
structure SelectOpt where
  text : Option String
  value : Option String
  disabledAttr : Option String
  unavailableAttr : Option String
deriving DecidableEq

/-- The DOM subtree of one variant-option custom element: its label sources
and the child elements each enumeration strategy reads. -/
structure GroupModel where
  validationNameLabel : Option String
  textContent : Option String
  radioInputs : List RadioInput
  selectOptions : List SelectOpt
  clickableTexts : List String
deriving DecidableEq

inductive GKind where
  | radio
  | select
  | fallback
deriving DecidableEq

/-- A located variant group (class VariantGroup, lines 95-102). -/
structure VariantGroup where
  kind : GKind
  root : GroupModel
  label : String
deriving DecidableEq

/-- A parsed JSON-LD value as far as the extractor cares: a string or not. -/
inductive LDVal where
  | str (s : String)
  | nonstr
deriving DecidableEq

/-- A JSON-LD dictionary, restricted to the four keys the extractor reads. -/
structure LDObj where
  productID : Option LDVal
  atId : Option LDVal
  sku : Option LDVal
  mpn : Option LDVal
deriving DecidableEq

inductive LDItem where
  | dict (o : LDObj)
  | nondict
deriving DecidableEq

/-- One script block of type application/ld+json: either it fails to parse or
it yields a list of items (a non-list payload is the singleton list, matching
line 367). -/
inductive LDScript where
  | parseFail
  | ok (items : List LDItem)
deriving DecidableEq

/-- Selection state of the page: which size option is selected (by index into
the enumerated size options) and which option each other attribute group has
selected (none = untouched initial state). -/
structure SelState where
  size : Option Nat
  others : List (Option Nat)
deriving DecidableEq

/-- A select-type interaction: clicking/selecting a size option or an option
of one of the other attribute groups. -/
inductive Action where
  | selSize (i : Nat)
  | selOther (g j : Nat)
deriving DecidableEq

/-- Interactive probing state: current selection state plus the log of every
select-type interaction performed so far. -/
structure ProbeSt where
  st : SelState
  log : List Action
deriving DecidableEq

/-- The full page model: the static DOM facts the script reads, plus the
dynamic oracle giving the page view after any combination of selections. -/
structure PageModel where
  radioGroups : List GroupModel
  selectGroups : List GroupModel
  sizeHeadingVisible : Bool
  fallbackTexts : List String
  nameCandidates : List (Option String)
  idCandidates : List (Option String)
  ldScripts : List LDScript
  view : SelState → PageView

/-! ### Availability decision predicate (lines 53-74 and 267-272) -/

/-- One examined control passes when it is visible, has no disabled
attribute, and its aria-disabled attribute is not true/1 (lines 58-62). -/
def controlEnabled (c : Control) : Bool :=
  c.visible && c.disabled.isNone
    && !(pyLower (c.ariaDisabled.getD "") == "true" || pyLower (c.ariaDisabled.getD "") == "1")

/-- any_visible_enabled over the examined add-to-cart controls. -/
def any_visible_enabled (cs : List Control) : Bool := cs.any controlEnabled

/-- is_current_variant_available (lines 267-272): negative captions first,
then a visible and enabled add-to-cart control, else unavailable. -/
def is_current_variant_available (v : PageView) : Bool :=
  if v.notifyVisible || v.oosVisible then false
  else if any_visible_enabled v.addControls then true
  else false

/-! ### Variant group location and classification (lines 104-139) -/

/-- Label of a located custom element: validation-name-label attribute,
falling back to its own text content, stripped (lines 112 and 122). -/
def groupLabel (g : GroupModel) : String := pyOrStrip g.validationNameLabel g.textContent

/-- The group model attached to the fallback-heading group: the header
container carries no custom-element children, only the following clickable
elements (line 239). -/
def fallbackRoot (pm : PageModel) : GroupModel :=
  { validationNameLabel := none, textContent := none, radioInputs := [],
    selectOptions := [], clickableTexts := pm.fallbackTexts }

/-- get_variant_groups (lines 104-136): every radio-tile custom element,
then every dropdown custom element, then — whenever the size heading is
visible — one fallback group labelled with the size keyword. -/
def get_variant_groups (pm : PageModel) : List VariantGroup :=
  pm.radioGroups.map (fun g => ⟨GKind.radio, g, groupLabel g⟩)
    ++ pm.selectGroups.map (fun g => ⟨GKind.select, g, groupLabel g⟩)
    ++ (if pm.sizeHeadingVisible then [⟨GKind.fallback, fallbackRoot pm, "Rozmiar"⟩] else [])

/-- group_is_size (line 139): whole-word, case-insensitive match of the size
keyword in the group label. -/
def group_is_size (g : VariantGroup) : Bool := hasWordCI g.label "rozmiar"

/-! ### Static availability readers (lines 142-204) -/

/-- Size label of a radio input: the data-user-value attribute stripped,
falling back to the text of the label element referenced by the input id
(lines 157-166). -/
def radioLabel (inp : RadioInput) : String :=
  let l := pyStrip (inp.dataUserValue.getD "")
  if l = "" then pyStrip (inp.labelForText.getD "") else l

/-- Class-list heuristic of line 174: the class string matches the
out-of-stock regex (unavailable, out-of-stock with optional separators,
sold, disabled), case-insensitively. -/
def classLooksOOS (klass : String) : Bool :=
  let l := pyLower klass
  containsStr l "unavailable" || containsStr l "sold" || containsStr l "disabled"
    || (["", "-", "_", " "].any fun a =>
         ["", "-", "_", " "].any fun b =>
           containsStr l ("out" ++ a ++ "of" ++ b ++ "stock"))

/-- The exclusion test of lines 171-176: explicit unavailable marker set to
1, disabled attribute present, aria-disabled true/1, or an out-of-stock
class keyword. -/
def radioExcluded (inp : RadioInput) : Bool :=
  (inp.unavailableAttr == some "1")
    || inp.disabledAttr.isSome
    || (pyLower (inp.ariaDisabled.getD "") == "true" || pyLower (inp.ariaDisabled.getD "") == "1")
    || classLooksOOS (inp.className.getD "")

/-- read_sizes_static_from_radio (lines 142-180): every input with a
non-empty label contributes to sizes_all, and to sizes_avail unless
excluded. -/
def read_sizes_static_from_radio : List RadioInput → List String × List String
  | [] => ([], [])
  | inp :: rest =>
    let label := radioLabel inp
    let r := read_sizes_static_from_radio rest
    if label = "" then r
    else (label :: r.1, if radioExcluded inp then r.2 else label :: r.2)

/-- read_sizes_static_from_select (lines 182-204): every option with
non-empty, non-placeholder text contributes to sizes_all, and to
sizes_avail unless disabled or marked unavailable. -/
def read_sizes_static_from_select : List SelectOpt → List String × List String
  | [] => ([], [])
  | opt :: rest =>
    let txt := pyStrip (opt.text.getD "")
    let r := read_sizes_static_from_select rest
    if txt = "" || containsStr (pyLower txt) "wybierz" then r
    else
      (txt :: r.1,
        if opt.disabledAttr.isSome || opt.unavailableAttr == some "1" then r.2
        else txt :: r.2)

/-! ### Interactive option enumeration (lines 207-252) -/

/-- The enumeration cap of line 208: a positive explicit limit, otherwise
ten to the sixth. -/
def optCap : Option Nat → Nat
  | some l => if 0 < l then l else 1000000
  | none => 1000000

/-- Strip each text and drop empty or placeholder captions. -/
def cleanTexts (ts : List String) : List String :=
  (ts.map pyStrip).filter fun t => !(t == "" || containsStr (pyLower t) "wybierz")

/-- list_options_for_group (lines 207-252), reduced to the option texts:
radio and fallback kinds additionally drop texts longer than 18 characters,
the fallback kind scans at most the first 48 following elements, and every
kind stops at the cap. -/
def list_options_for_group (g : VariantGroup) (limit : Option Nat) : List String :=
  let cap := optCap limit
  match g.kind with
  | GKind.radio =>
      ((cleanTexts g.root.clickableTexts).filter fun t => t.length ≤ 18).take cap
  | GKind.select =>
      (cleanTexts (g.root.selectOptions.map fun o => o.text.getD "")).take cap
  | GKind.fallback =>
      ((cleanTexts (g.root.clickableTexts.take 48)).filter fun t => t.length ≤ 18).take cap

/-! ### Selection steps (lines 254-265, 279-282) -/

/-- Selecting a size option: record the interaction and update the selection
state.  Selection failures are swallowed by the script (line 264) and appear
here as the oracle simply not changing its answer. -/
def selSize (ps : ProbeSt) (i : Nat) : ProbeSt :=
  { st := { ps.st with size := some i }, log := ps.log ++ [Action.selSize i] }

/-- Selecting option j of other group g. -/
def selOther (ps : ProbeSt) (g j : Nat) : ProbeSt :=
  { st := { ps.st with others := ps.st.others.set g (some j) },
    log := ps.log ++ [Action.selOther g j] }

/-- select_defaults_for_others (lines 279-282): every other group with at
least one enumerated option is set to its first option, in group order. -/
def defaultsAux : List (List String) → Nat → ProbeSt → ProbeSt
  | [], _, ps => ps
  | opts :: rest, g, ps =>
    defaultsAux rest (g + 1) (if opts.isEmpty then ps else selOther ps g 0)

def select_defaults_for_others (otherOpts : List (List String)) (ps : ProbeSt) : ProbeSt :=
  defaultsAux otherOpts 0 ps

/-- The decision predicate evaluated against the page view at the current
selection state. -/
def availNow (view : SelState → PageView) (ps : ProbeSt) : Bool :=
  is_current_variant_available (view ps.st)

/-! ### Union-mode prober (lines 274-334) -/

/-- Result of the pairwise escalation loops: whether availability was found,
the probing state, the value of the tried counter, and the number of
pairwise selection attempts actually performed. -/
structure PairSt where
  found : Bool
  ps : ProbeSt
  tried : Nat
  perf : Nat
deriving DecidableEq

/-- Innermost pairwise loop (lines 317-328): iterate the options of group b,
incrementing the tried counter first and breaking once it exceeds the cap;
otherwise reset defaults, select the pair and the size, and test. -/
def pairInner (view : SelState → PageView) (otherOpts : List (List String))
    (i a b ja : Nat) : List Nat → ProbeSt → Nat → Nat → PairSt
  | [], ps, tried, perf => ⟨false, ps, tried, perf⟩
  | jb :: jbs, ps, tried, perf =>
    let tried' := tried + 1
    if MAX_PAIRWISE_CHECKS < tried' then ⟨false, ps, tried', perf⟩
    else
      let ps := select_defaults_for_others otherOpts ps
      let ps := selOther ps a ja
      let ps := selOther ps b jb
      let ps := selSize ps i
      if availNow view ps then ⟨true, ps, tried', perf + 1⟩
      else pairInner view otherOpts i a b ja jbs ps tried' (perf + 1)

/-- Middle pairwise loop (options of group a), breaking on success or an
exhausted budget (line 329). -/
def pairMid (view : SelState → PageView) (otherOpts : List (List String))
    (i a b : Nat) : List Nat → ProbeSt → Nat → Nat → PairSt
  | [], ps, tried, perf => ⟨false, ps, tried, perf⟩
  | ja :: jas, ps, tried, perf =>
    let r := pairInner view otherOpts i a b ja
      (List.range (otherOpts.getD b []).length) ps tried perf
    if r.found || MAX_PAIRWISE_CHECKS < r.tried then r
    else pairMid view otherOpts i a b jas r.ps r.tried r.perf

/-- Outer pairwise loop over unordered pairs of other groups (line 315). -/
def pairOuter (view : SelState → PageView) (otherOpts : List (List String))
    (i : Nat) : List (Nat × Nat) → ProbeSt → Nat → Nat → PairSt
  | [], ps, tried, perf => ⟨false, ps, tried, perf⟩
  | (a, b) :: prs, ps, tried, perf =>
    let r := pairMid view otherOpts i a b
      (List.range (otherOpts.getD a []).length) ps tried perf
    if r.found || MAX_PAIRWISE_CHECKS < r.tried then r
    else pairOuter view otherOpts i prs r.ps r.tried r.perf

/-- The unordered index pairs (a, b) with a < b, in the order produced by
itertools.combinations. -/
def pairsOf (n : Nat) : List (Nat × Nat) :=
  ((List.range n).map fun a =>
    (List.range n).filterMap fun b => if a < b then some (a, b) else none).flatten

/-- Single-override inner loop (lines 299-306): options of one other group. -/
def singlesOpts (view : SelState → PageView) (otherOpts : List (List String))
    (i g : Nat) : List Nat → ProbeSt → Bool × ProbeSt
  | [], ps => (false, ps)
  | j :: js, ps =>
    let ps := select_defaults_for_others otherOpts ps
    let ps := selOther ps g j
    let ps := selSize ps i
    if availNow view ps then (true, ps)
    else singlesOpts view otherOpts i g js ps

/-- Single-override outer loop over the other groups (lines 297-308). -/
def singlesGroups (view : SelState → PageView) (otherOpts : List (List String))
    (i : Nat) : Nat → List (List String) → ProbeSt → Bool × ProbeSt
  | _, [], ps => (false, ps)
  | g, opts :: rest, ps =>
    let r := singlesOpts view otherOpts i g (List.range opts.length) ps
    if r.1 then r else singlesGroups view otherOpts i (g + 1) rest r.2

/-- The union-mode escalation for one size option (lines 286-332): defaults,
then single overrides, then bounded pairwise search.  Returns whether the
size was judged available, the probing state, and the number of pairwise
selection attempts performed for this size. -/
def unionSize (view : SelState → PageView) (otherOpts : List (List String))
    (i : Nat) (ps : ProbeSt) : Bool × ProbeSt × Nat :=
  let ps := select_defaults_for_others otherOpts ps
  let ps := selSize ps i
  if availNow view ps then (true, ps, 0)
  else
    let r := singlesGroups view otherOpts i 0 otherOpts ps
    if r.1 then (true, r.2, 0)
    else if 2 ≤ otherOpts.length then
      let p := pairOuter view otherOpts i (pairsOf otherOpts.length) r.2 0 0
      (p.found, p.ps, p.perf)
    else (false, r.2, 0)

/-- The size loop of the union prober, accumulating the available labels in
order, threading the probing state, and summing the pairwise attempts. -/
def unionSizes (view : SelState → PageView) (otherOpts : List (List String)) :
    Nat → List String → ProbeSt → List String × ProbeSt × Nat
  | _, [], ps => ([], ps, 0)
  | i, t :: ts, ps =>
    let r := unionSize view otherOpts i ps
    let rest := unionSizes view otherOpts (i + 1) ts r.2.1
    ((if r.1 then t :: rest.1 else rest.1), rest.2.1, r.2.2 + rest.2.2)

/-- Output of the union prober, instrumented with the final probing state
and the total number of pairwise selection attempts. -/
structure UnionOut where
  all : List String
  avail : List String
  ps : ProbeSt
  pairwise : Nat
deriving DecidableEq

/-- check_size_availability_union (lines 274-334): enumerate the size
options without a cap and each other group up to the per-group cap, then
run the escalating search for each size in turn. -/
def check_size_availability_union (view : SelState → PageView)
    (size_group : VariantGroup) (other_groups : List VariantGroup)
    (ps0 : ProbeSt) : UnionOut :=
  let size_options := list_options_for_group size_group none
  let otherOpts := other_groups.map fun g =>
    list_options_for_group g (some MAX_OPTIONS_PER_GROUP)
  let r := unionSizes view otherOpts 0 size_options ps0
  { all := size_options, avail := r.1, ps := r.2.1, pairwise := r.2.2 }

/-! ### Simple-mode prober (lines 437-444) -/

/-- Output of the simple-mode prober. -/
structure SimpleOut where
  all : List String
  avail : List String
  ps : ProbeSt
deriving DecidableEq

/-- The size loop of the simple-mode branch: select each size option in turn
and test the decision predicate. -/
def simpleSizes (view : SelState → PageView) :
    Nat → List String → ProbeSt → List String × ProbeSt
  | _, [], ps => ([], ps)
  | i, t :: ts, ps =>
    let ps := selSize ps i
    let av := availNow view ps
    let rest := simpleSizes view (i + 1) ts ps
    ((if av then t :: rest.1 else rest.1), rest.2)

/-- The simple-mode branch of probe_product (lines 437-444): enumerate the
size options, then for each in turn select it and evaluate the decision
predicate; other attribute groups are not touched. -/
def simple_mode_probe (view : SelState → PageView) (size_group : VariantGroup)
    (ps0 : ProbeSt) : SimpleOut :=
  let opts := list_options_for_group size_group none
  let r := simpleSizes view 0 opts ps0
  { all := opts, avail := r.1, ps := r.2 }

/-! ### Product identity extractor (lines 337-376) -/

/-- Try the URL regex of line 338 at one position: the literal /pl/p/, a
non-empty slash-free slug, a slash, then a maximal non-empty digit run. -/
def plpAt (prefixChars : List Char) (cs : List Char) : Option String :=
  if prefixChars.isPrefixOf cs then
    let r := cs.drop prefixChars.length
    let seg := r.takeWhile fun c => c ≠ '/'
    if seg.isEmpty then none
    else
      match r.drop seg.length with
      | '/' :: r2 =>
        let ds := r2.takeWhile (·.isDigit)
        if ds.isEmpty then none else some (String.mk ds)
      | _ => none
  else none

/-- Leftmost-match regex search over the URL characters. -/
def searchPat (prefixChars : List Char) : List Char → Option String
  | [] => none
  | c :: rest =>
    match plpAt prefixChars (c :: rest) with
    | some d => some d
    | none => searchPat prefixChars rest

/-- The URL heuristic of lines 338-340: first match of the /pl/p/ slug-id
pattern. -/
def matchPlP (url : String) : Option String := searchPat "/pl/p/".toList url.toList

/-- The DOM-attribute cascade of lines 342-355: first candidate value that
is truthy and whose stripped form is digit-only. -/
def firstDigitCandidate : List (Option String) → Option String
  | [] => none
  | none :: rest => firstDigitCandidate rest
  | some s :: rest =>
    if s ≠ "" && isDigitStr (pyStrip s) then some (pyStrip s) else firstDigitCandidate rest

/-- The key cascade inside one JSON-LD dictionary (lines 370-373):
productID, then the at-id alias, then sku, then mpn; accepted when the value
is a digit-only string. -/
def digitVal : Option LDVal → Option String
  | some (LDVal.str s) => if isDigitStr s then some s else none
  | _ => none

def ldObjId (o : LDObj) : Option String :=
  match digitVal o.productID with
  | some s => some s
  | none =>
    match digitVal o.atId with
    | some s => some s
    | none =>
      match digitVal o.sku with
      | some s => some s
      | none => digitVal o.mpn

/-- Scan the items of one script block; non-dictionary items are skipped. -/
def ldItemsScan : List LDItem → Option String
  | [] => none
  | LDItem.nondict :: rest => ldItemsScan rest
  | LDItem.dict o :: rest =>
    match ldObjId o with
    | some s => some s
    | none => ldItemsScan rest

/-- Scan script blocks in order; parse failures are skipped (line 366). -/
def ldScriptsScan : List LDScript → Option String
  | [] => none
  | LDScript.parseFail :: rest => ldScriptsScan rest
  | LDScript.ok items :: rest =>
    match ldItemsScan items with
    | some s => some s
    | none => ldScriptsScan rest

/-- The JSON-LD step of lines 357-375: at most the first six script blocks
are inspected; an empty string when nothing is found. -/
def jsonLdId (scripts : List LDScript) : String :=
  (ldScriptsScan (scripts.take 6)).getD ""

/-- extract_product_id (lines 337-376): URL pattern first, then the
DOM-attribute cascade, then JSON-LD, else the empty string. -/
def extract_product_id (pm : PageModel) (url : String) : String :=
  match matchPlP url with
  | some d => d
  | none =>
    match firstDigitCandidate pm.idCandidates with
    | some d => d
    | none => jsonLdId pm.ldScripts

/-- extract_product_name (lines 378-386): the first selector whose text
strips to something non-empty. -/
def nameCascade : List (Option String) → String
  | [] => ""
  | c :: rest =>
    let t := pyStrip (c.getD "")
    if t = "" then nameCascade rest else t

def extract_product_name (pm : PageModel) : String := nameCascade pm.nameCandidates

/-! ### Per-product orchestration (lines 388-464) and the batch loop -/

/-- The size_count column: a number, or the empty sentinel written on a
fatal per-product failure (line 459). -/
inductive SizeCount where
  | num (n : Nat)
  | empty
deriving DecidableEq

/-- One ProductProbeResult record (the dict literals of lines 409, 423-431,
447-455, 459). -/
structure ProbeResult where
  product_id : String
  url : String
  name : String
  sizes_all : List String
  sizes_avail : List String
  size_count : SizeCount
  status : String
deriving DecidableEq

/-- The static-read dispatch of lines 413-418: radio and dropdown kinds use
their static reader, the fallback kind yields nothing. -/
def static_read (sg : VariantGroup) : List String × List String :=
  match sg.kind with
  | GKind.radio => read_sizes_static_from_radio sg.root.radioInputs
  | GKind.select => read_sizes_static_from_select sg.root.selectOptions
  | GKind.fallback => ([], [])

/-- probe_product on a successfully loaded page (lines 388-455), with the
availability mode as a parameter standing for the UNION_MODE constant.
Returns the assembled record and the log of select-type interactions. -/
def probe_product_mode (unionMode : Bool) (pm : PageModel) (url : String) :
    ProbeResult × List Action :=
  let product_name := extract_product_name pm
  let product_id := extract_product_id pm url
  let groups := get_variant_groups pm
  let size_groups := groups.filter group_is_size
  let other_groups := groups.filter fun g => !group_is_size g
  match size_groups with
  | [] =>
    ({ product_id := product_id, url := url, name := product_name,
       sizes_all := [], sizes_avail := [], size_count := SizeCount.num 0,
       status := "no_size_group" }, [])
  | sg :: _ =>
    let s := static_read sg
    if s.1.isEmpty then
      let ps0 : ProbeSt :=
        { st := { size := none, others := List.replicate other_groups.length none },
          log := [] }
      if unionMode then
        let u := check_size_availability_union pm.view sg other_groups ps0
        ({ product_id := product_id, url := url, name := product_name,
           sizes_all := u.all, sizes_avail := u.avail,
           size_count := SizeCount.num u.avail.length, status := "ok" }, u.ps.log)
      else
        let r := simple_mode_probe pm.view sg ps0
        ({ product_id := product_id, url := url, name := product_name,
           sizes_all := r.all, sizes_avail := r.avail,
           size_count := SizeCount.num r.avail.length, status := "ok" }, r.ps.log)
    else
      ({ product_id := product_id, url := url, name := product_name,
         sizes_all := s.1, sizes_avail := s.2,
         size_count := SizeCount.num s.2.length, status := "ok" }, [])

/-- probe_product as shipped: union mode on. -/
def probe_product (pm : PageModel) (url : String) : ProbeResult × List Action :=
  probe_product_mode UNION_MODE pm url

/-- probe_product including its outermost exception handler (lines 457-459):
a fault while loading or probing the page is converted into an error record
whose status carries the fault's category name. -/
def probe_product_total (inp : Except String PageModel) (url : String) :
    ProbeResult × List Action :=
  match inp with
  | Except.error cause =>
    ({ product_id := "", url := url, name := "", sizes_all := [],
       sizes_avail := [], size_count := SizeCount.empty,
       status := "error: " ++ cause }, [])
  | Except.ok pm => probe_product pm url

/-- The batch loop of main (lines 526-533): one appended row per URL, the
loop never stops early. -/
def runBatch (inputs : List (Except String PageModel × String)) : List ProbeResult :=
  inputs.map fun p => (probe_product_total p.1 p.2).1

/-! ### Definitions modelled from the spec, for refinement comparison -/

/-- Modelled from the spec: the URL pattern of the precedence claim, written
as /p/(slug)/(digits) — the literal /p/, a non-empty slash-free slug, a
slash, then digits. -/
def specMatchPSlugDigits (url : String) : Option String :=
  searchPat "/p/".toList url.toList

/-- Modelled from the spec: simple mode as the spec describes it — set every
other attribute group to its first option once, then for each size option in
turn select it and evaluate the decision predicate. -/
def simple_mode_spec (view : SelState → PageView) (size_group : VariantGroup)
    (other_groups : List VariantGroup) (ps0 : ProbeSt) : SimpleOut :=
  let otherOpts := other_groups.map fun g =>
    list_options_for_group g (some MAX_OPTIONS_PER_GROUP)
  let ps := select_defaults_for_others otherOpts ps0
  let opts := list_options_for_group size_group none
  let r := simpleSizes view 0 opts ps
  { all := opts, avail := r.1, ps := r.2 }

/-! ### Concrete pages used by witnesses and counterexamples -/

/-- A page view where a notify-me caption is visible. -/
def viewNeg : PageView := { notifyVisible := true, oosVisible := false, addControls := [] }

def ctlOK : Control := { visible := true, disabled := none, ariaDisabled := none }

/-- A page view with an enabled, visible add-to-cart control and no negative
captions. -/
def viewOK : PageView :=
  { notifyVisible := false, oosVisible := false, addControls := [ctlOK] }

def inpS : RadioInput :=
  { dataUserValue := some "S", labelForText := none, unavailableAttr := none,
    disabledAttr := none, ariaDisabled := none, className := some "radio-box__input" }

def inpM : RadioInput := { inpS with dataUserValue := some "M", unavailableAttr := some "1" }

def inpL : RadioInput := { inpS with dataUserValue := some "L" }

/-- A radio-tile size group with inputs S, M, L where M carries the
unavailable marker. -/
def gmSML : GroupModel :=
  { validationNameLabel := some "Rozmiar", textContent := none,
    radioInputs := [inpS, inpM, inpL], selectOptions := [], clickableTexts := [] }

def sgSML : VariantGroup := ⟨GKind.radio, gmSML, "Rozmiar"⟩

/-- A product page whose only variant group is the S/M/L radio-tile size
group. -/
def pageSML : PageModel :=
  { radioGroups := [gmSML], selectGroups := [], sizeHeadingVisible := false,
    fallbackTexts := [], nameCandidates := [], idCandidates := [], ldScripts := [],
    view := fun _ => viewNeg }

/-- A radio-tile size group carrying two inputs with the same user value. -/
def gmDup : GroupModel := { gmSML with radioInputs := [inpS, inpS] }

def pageDup : PageModel := { pageSML with radioGroups := [gmDup] }

/-- A bare group model holding only clickable option texts. -/
def gmN (ts : List String) : GroupModel :=
  { validationNameLabel := none, textContent := none, radioInputs := [],
    selectOptions := [], clickableTexts := ts }

/-- A page with one radio custom element and a visible size heading. -/
def pageC3 : PageModel :=
  { radioGroups := [gmSML], selectGroups := [], sizeHeadingVisible := true,
    fallbackTexts := [], nameCandidates := [], idCandidates := [], ldScripts := [],
    view := fun _ => viewNeg }

/-- A page carrying a conflicting DOM product-id attribute. -/
def pageC7 : PageModel :=
  { radioGroups := [], selectGroups := [], sizeHeadingVisible := false,
    fallbackTexts := [], nameCandidates := [], idCandidates := [some "111"],
    ldScripts := [], view := fun _ => viewNeg }

/-- A JSON-LD object whose sku is a digit-only string. -/
def obj777 : LDObj := { productID := none, atId := none, sku := some (LDVal.str "777"), mpn := none }

/-- A page whose seventh (and only useful) JSON-LD script block carries
the digit identifier. -/
def page10 : PageModel :=
  { radioGroups := [], selectGroups := [], sizeHeadingVisible := false,
    fallbackTexts := [], nameCandidates := [], idCandidates := [],
    ldScripts := List.replicate 6 LDScript.parseFail ++ [LDScript.ok [LDItem.dict obj777]],
    view := fun _ => viewNeg }

/-! ### Claim C5: availability decision predicate -/

/-- C5: the decision predicate returns unavailable whenever a notify-me or
out-of-stock caption is visible, even alongside an enabled add-to-cart
control; it returns available exactly when no negative caption is visible
and some add-to-cart control is visible and enabled; every other state is
unavailable. -/
theorem claim5_decision_predicate (v : PageView) :
    (is_current_variant_available v = true ↔
      (v.notifyVisible = false ∧ v.oosVisible = false
        ∧ any_visible_enabled v.addControls = true))
    ∧ ((v.notifyVisible = true ∨ v.oosVisible = true) →
        is_current_variant_available v = false) := by
  rcases v with ⟨n, o, cs⟩
  cases n <;> cases o <;> simp [is_current_variant_available]

/-- Witness for C5: with a notify-me caption and an enabled add-to-cart
control both visible, the predicate returns unavailable. -/
theorem claim5_witness :
    is_current_variant_available
      { notifyVisible := true, oosVisible := false, addControls := [ctlOK] } = false :=
  (claim5_decision_predicate _).2 (Or.inl rfl)

/-! ### Claim C3: variant group locator fallback -/

/-- C3 counterexample: on a page with a radio-tile custom element and a
visible size heading, the locator returns both the radio group and a
fallback group, so locating a custom-element group does not suppress the
fallback. -/
theorem claim3_counterexample :
    (∃ g ∈ get_variant_groups pageC3, g.kind = GKind.radio)
    ∧ ∃ g ∈ get_variant_groups pageC3, g.kind = GKind.fallback := by
  decide

/-- C3 amended: the locator appends the fallback-heading group exactly when
the size heading is visible, independently of whether any custom-element
group exists. -/
theorem claim3_amended (pm : PageModel) :
    ((get_variant_groups pm).any fun g => decide (g.kind = GKind.fallback))
      = pm.sizeHeadingVisible := by
  unfold get_variant_groups
  cases h : pm.sizeHeadingVisible <;>
    simp [List.any_append, List.any_map, Function.comp_def, h]

/-! ### Claim C8: fatal per-product failure handling -/

/-- C8 counterexample: a navigation timeout produces the status string with
a space after the colon, not the literal error:cause format. -/
theorem claim8_counterexample :
    (probe_product_total (Except.error "PWTimeout") "u").1.status = "error: PWTimeout"
    ∧ (probe_product_total (Except.error "PWTimeout") "u").1.status
        ≠ "error:" ++ "PWTimeout" := by
  exact ⟨rfl, by decide⟩

/-- C8 amended: a fault raised inside the per-product probe yields a single
record with status "error: " followed by the fault category, every other
field empty and the empty size-count sentinel, and the batch continues with
the remaining URLs. -/
theorem claim8_amended (cause url : String)
    (rest : List (Except String PageModel × String)) :
    probe_product_total (Except.error cause) url =
      ({ product_id := "", url := url, name := "", sizes_all := [],
         sizes_avail := [], size_count := SizeCount.empty,
         status := "error: " ++ cause }, [])
    ∧ runBatch ((Except.error cause, url) :: rest) =
        (probe_product_total (Except.error cause) url).1 :: runBatch rest :=
  ⟨rfl, rfl⟩

/-! ### Claim C7: URL precedence in the identity extractor -/

/-- C7 counterexample: a URL matching the bare /p/(slug)/(digits) pattern
but not the /pl/p/ pattern is resolved from the conflicting DOM attribute,
not from the URL digits. -/
theorem claim7_counterexample :
    specMatchPSlugDigits "https://shop.example/en/p/shoe/999" = some "999"
    ∧ extract_product_id pageC7 "https://shop.example/en/p/shoe/999" = "111"
    ∧ ("111" : String) ≠ "999" :=
  ⟨by decide, by decide, by decide⟩

/-- C7 amended: for every URL matching the /pl/p/(slug)/(digits) pattern the
extractor returns exactly the digits, regardless of any DOM attribute or
structured-data value on the page. -/
theorem claim7_amended (pm : PageModel) (url d : String)
    (h : matchPlP url = some d) :
    extract_product_id pm url = d := by
  simp [extract_product_id, h]

/-- Witness for C7: a /pl/p/ URL wins over a conflicting DOM attribute. -/
theorem claim7_witness :
    extract_product_id pageC7 "https://shop.example/pl/p/shoe/12345" = "12345" :=
  claim7_amended pageC7 _ "12345" rfl

/-! ### Claim C10: JSON-LD step bounded to six script blocks -/

/-- C10: when the URL pattern and the DOM-attribute cascade both fail, the
extractor's result is the JSON-LD scan of at most the first six script
blocks, and it is the empty string when those six yield nothing — an
identifier appearing only in a later block is never returned. -/
theorem claim10_jsonld_bounded (pm : PageModel) (url : String)
    (h1 : matchPlP url = none)
    (h2 : firstDigitCandidate pm.idCandidates = none) :
    extract_product_id pm url = jsonLdId pm.ldScripts
    ∧ jsonLdId pm.ldScripts = jsonLdId (pm.ldScripts.take 6)
    ∧ (ldScriptsScan (pm.ldScripts.take 6) = none → extract_product_id pm url = "") := by
  refine ⟨?_, ?_, ?_⟩
  · simp [extract_product_id, h1, h2]
  · simp [jsonLdId, List.take_take]
  · intro h3
    simp [extract_product_id, h1, h2, jsonLdId, h3]

/-- Witness for C10: on a page whose digit identifier sits only in the
seventh script block, the extractor returns the empty string even though a
full scan would find the identifier. -/
theorem claim10_witness :
    extract_product_id page10 "u" = ""
    ∧ ldScriptsScan page10.ldScripts = some "777" :=
  ⟨(claim10_jsonld_bounded page10 "u" rfl rfl).2.2 (by decide), by decide⟩

/-! ### Claim C2: pairwise attempt budget -/

def sgC2 : VariantGroup := ⟨GKind.radio, gmN ["A", "B"], "Rozmiar"⟩

def ogC2a : VariantGroup := ⟨GKind.radio, gmN ["c1", "c2", "c3", "c4", "c5", "c6"], "Kolor"⟩

def ogC2b : VariantGroup := ⟨GKind.radio, gmN ["d1", "d2", "d3", "d4", "d5", "d6"], "Motyw"⟩

def psInit2 : ProbeSt := { st := { size := none, others := [none, none] }, log := [] }

/-- C2 counterexample: with two size options and two other groups of six
options each, never available, the union probe performs 48 pairwise
selection attempts in total — the cap applies per size, not to the whole
probe. -/
theorem claim2_counterexample :
    (check_size_availability_union (fun _ => viewNeg) sgC2 [ogC2a, ogC2b] psInit2).pairwise = 48
    ∧ MAX_PAIRWISE_CHECKS <
        (check_size_availability_union (fun _ => viewNeg) sgC2 [ogC2a, ogC2b] psInit2).pairwise := by
  exact ⟨by decide, by decide⟩

/-- The invariant the pairwise loops maintain on the tried counter and the
count of attempts actually performed. -/
def PBnd (r : PairSt) : Prop := r.perf ≤ r.tried ∧ r.perf ≤ MAX_PAIRWISE_CHECKS

theorem pairInner_bnd (view : SelState → PageView) (oo : List (List String))
    (i a b ja : Nat) :
    ∀ (jbs : List Nat) (ps : ProbeSt) (tried perf : Nat),
      perf ≤ tried → perf ≤ MAX_PAIRWISE_CHECKS →
      PBnd (pairInner view oo i a b ja jbs ps tried perf) := by
  intro jbs
  induction jbs with
  | nil => intro ps tried perf h1 h2; exact ⟨h1, h2⟩
  | cons jb jbs ih =>
    intro ps tried perf h1 h2
    simp only [pairInner]
    split
    · exact ⟨Nat.le_succ_of_le h1, h2⟩
    · next hle =>
      have htr : tried + 1 ≤ MAX_PAIRWISE_CHECKS := Nat.le_of_not_lt hle
      split
      · exact ⟨Nat.succ_le_succ h1, Nat.le_trans (Nat.succ_le_succ h1) htr⟩
      · exact ih _ _ _ (Nat.succ_le_succ h1) (Nat.le_trans (Nat.succ_le_succ h1) htr)

theorem pairMid_bnd (view : SelState → PageView) (oo : List (List String))
    (i a b : Nat) :
    ∀ (jas : List Nat) (ps : ProbeSt) (tried perf : Nat),
      perf ≤ tried → perf ≤ MAX_PAIRWISE_CHECKS →
      PBnd (pairMid view oo i a b jas ps tried perf) := by
  intro jas
  induction jas with
  | nil => intro ps tried perf h1 h2; exact ⟨h1, h2⟩
  | cons ja jas ih =>
    intro ps tried perf h1 h2
    simp only [pairMid]
    have hr := pairInner_bnd view oo i a b ja
      (List.range (oo.getD b []).length) ps tried perf h1 h2
    split
    · exact hr
    · exact ih _ _ _ hr.1 hr.2

theorem pairOuter_bnd (view : SelState → PageView) (oo : List (List String))
    (i : Nat) :
    ∀ (prs : List (Nat × Nat)) (ps : ProbeSt) (tried perf : Nat),
      perf ≤ tried → perf ≤ MAX_PAIRWISE_CHECKS →
      PBnd (pairOuter view oo i prs ps tried perf) := by
  intro prs
  induction prs with
  | nil => intro ps tried perf h1 h2; exact ⟨h1, h2⟩
  | cons pr prs ih =>
    intro ps tried perf h1 h2
    obtain ⟨a, b⟩ := pr
    simp only [pairOuter]
    have hr := pairMid_bnd view oo i a b
      (List.range (oo.getD a []).length) ps tried perf h1 h2
    split
    · exact hr
    · exact ih _ _ _ hr.1 hr.2

/-- Per size option, the number of pairwise selection attempts is bounded by
the cap. -/
theorem unionSize_perf_le (view : SelState → PageView) (oo : List (List String))
    (i : Nat) (ps : ProbeSt) :
    (unionSize view oo i ps).2.2 ≤ MAX_PAIRWISE_CHECKS := by
  simp only [unionSize]
  split
  · exact Nat.zero_le _
  · split
    · exact Nat.zero_le _
    · split
      · exact (pairOuter_bnd view oo i (pairsOf oo.length) _ 0 0
          (Nat.le_refl 0) (Nat.zero_le _)).2
      · exact Nat.zero_le _

theorem unionSizes_perf_le (view : SelState → PageView) (oo : List (List String)) :
    ∀ (ts : List String) (i : Nat) (ps : ProbeSt),
      (unionSizes view oo i ts ps).2.2 ≤ MAX_PAIRWISE_CHECKS * ts.length := by
  intro ts
  induction ts with
  | nil => intro i ps; simp [unionSizes]
  | cons t ts ih =>
    intro i ps
    simp only [unionSizes, List.length_cons]
    have h1 := unionSize_perf_le view oo i ps
    have h2 := ih (i + 1) (unionSize view oo i ps).2.1
    simp only [MAX_PAIRWISE_CHECKS] at h1 h2 ⊢
    omega

/-- C2 amended: the pairwise attempt budget is enforced per size option, so
the total number of pairwise selection attempts of one probe is bounded by
the cap times the number of size options, and by the cap for each single
size. -/
theorem claim2_amended (view : SelState → PageView) (sg : VariantGroup)
    (ogs : List VariantGroup) (ps0 : ProbeSt) :
    (check_size_availability_union view sg ogs ps0).pairwise
      ≤ MAX_PAIRWISE_CHECKS
        * (check_size_availability_union view sg ogs ps0).all.length := by
  unfold check_size_availability_union
  exact unionSizes_perf_le view _ _ 0 ps0

/-! ### Claim C9: simple mode -/

def view9 : SelState → PageView :=
  fun st => if st.others.getD 0 none = some 0 then viewOK else viewNeg

def sg9 : VariantGroup := ⟨GKind.radio, gmN ["S"], "Rozmiar"⟩

def og9 : VariantGroup := ⟨GKind.radio, gmN ["Red"], "Kolor"⟩

def ps01 : ProbeSt := { st := { size := none, others := [none] }, log := [] }

/-- C9 counterexample: on a page where availability requires the other group
to sit at its first option, the code's simple mode finds nothing and never
touches the other group, while the behaviour the claim describes would find
the size; the two disagree. -/
theorem claim9_counterexample :
    (simple_mode_probe view9 sg9 ps01).avail = []
    ∧ (simple_mode_spec view9 sg9 [og9] ps01).avail = ["S"]
    ∧ ((simple_mode_probe view9 sg9 ps01).ps.log.any fun a =>
        match a with
        | Action.selOther _ _ => true
        | Action.selSize _ => false) = false := by
  refine ⟨by decide, by decide, by decide⟩

theorem simpleSizes_log (view : SelState → PageView) :
    ∀ (ts : List String) (i : Nat) (ps : ProbeSt),
      (simpleSizes view i ts ps).2.log =
        ps.log ++ (List.range' i ts.length).map Action.selSize := by
  intro ts
  induction ts with
  | nil => intro i ps; simp [simpleSizes]
  | cons t ts ih =>
    intro i ps
    simp [simpleSizes, ih, selSize, List.range']

/-- C9 amended: in simple mode the prober leaves every other attribute group
untouched — its interaction log is exactly one size selection per enumerated
size option, in order — and it evaluates the decision predicate after each
selection. -/
theorem claim9_amended (view : SelState → PageView) (sg : VariantGroup)
    (ps0 : ProbeSt) :
    (simple_mode_probe view sg ps0).all = list_options_for_group sg none
    ∧ (simple_mode_probe view sg ps0).ps.log =
        ps0.log ++ (List.range (list_options_for_group sg none).length).map
          Action.selSize := by
  constructor
  · rfl
  · simp [simple_mode_probe, simpleSizes_log, List.range_eq_range']

/-! ### Claim C6: static radio exclusion rule -/

/-- C6: an enumerated radio input with a non-empty label lands in sizes_all,
and in sizes_avail exactly when it is not excluded (unavailable marker set,
disabled state or accessibility-disabled flag, or an out-of-stock class
keyword); on the S/M/L page where only M carries the marker, the probe
yields all sizes with M missing from the available ones and status ok. -/
theorem claim6_radio_exclusion :
    (∀ l : List RadioInput,
       (read_sizes_static_from_radio l).1 =
         (l.filter fun inp => !(radioLabel inp == "")).map radioLabel
       ∧ (read_sizes_static_from_radio l).2 =
         (l.filter fun inp => !(radioLabel inp == "") && !radioExcluded inp).map
           radioLabel)
    ∧ probe_product pageSML "u" =
        ({ product_id := "", url := "u", name := "", sizes_all := ["S", "M", "L"],
           sizes_avail := ["S", "L"], size_count := SizeCount.num 2,
           status := "ok" }, []) := by
  constructor
  · intro l
    induction l with
    | nil => exact ⟨rfl, rfl⟩
    | cons inp rest ih =>
      by_cases hl : radioLabel inp = ""
      · simp [read_sizes_static_from_radio, hl, List.filter_cons, ih.1, ih.2]
      · by_cases he : radioExcluded inp = true
        · simp [read_sizes_static_from_radio, hl, he, List.filter_cons, ih.1, ih.2]
        · simp [read_sizes_static_from_radio, hl, he, List.filter_cons, ih.1, ih.2]
  · decide

/-! ### Claim C1: static result is final -/

/-- C1: whenever the first size group has the radio-tile or dropdown kind
and its static read yields a non-empty sizes_all, the probe returns exactly
the static result with status ok and performs no select-type interaction,
in either availability mode. -/
theorem claim1_static_preferred (m : Bool) (pm : PageModel) (url : String)
    (sg : VariantGroup) (rest : List VariantGroup)
    (h1 : (get_variant_groups pm).filter group_is_size = sg :: rest)
    (_h2 : sg.kind = GKind.radio ∨ sg.kind = GKind.select)
    (h3 : (static_read sg).1 ≠ []) :
    probe_product_mode m pm url =
      ({ product_id := extract_product_id pm url, url := url,
         name := extract_product_name pm, sizes_all := (static_read sg).1,
         sizes_avail := (static_read sg).2,
         size_count := SizeCount.num (static_read sg).2.length,
         status := "ok" }, []) := by
  have h4 : (static_read sg).1.isEmpty = false := by
    cases hx : (static_read sg).1 with
    | nil => exact absurd hx h3
    | cons a t => rfl
  simp only [probe_product_mode, h1]
  simp [h4]

/-- Witness for C1: the S/M/L radio page takes the static path with an empty
interaction log. -/
theorem claim1_witness :
    probe_product_mode true pageSML "u" =
      ({ product_id := "", url := "u", name := "", sizes_all := ["S", "M", "L"],
         sizes_avail := ["S", "L"], size_count := SizeCount.num 2,
         status := "ok" }, []) := by
  have h := claim1_static_preferred true pageSML "u" sgSML [] (by decide)
    (Or.inl rfl) (by decide)
  exact h.trans (by decide)

/-! ### Claim C4: result record invariants -/

theorem radio_avail_sublist (l : List RadioInput) :
    (read_sizes_static_from_radio l).2.Sublist (read_sizes_static_from_radio l).1 := by
  induction l with
  | nil => simp [read_sizes_static_from_radio]
  | cons inp rest ih =>
    by_cases hl : radioLabel inp = ""
    · simpa [read_sizes_static_from_radio, hl] using ih
    · by_cases he : radioExcluded inp = true
      · simp only [read_sizes_static_from_radio, if_neg hl, if_pos he]
        exact ih.cons _
      · simp only [read_sizes_static_from_radio, if_neg hl, if_neg he]
        exact ih.cons₂ _

theorem radio_all_ne (l : List RadioInput) :
    ∀ s ∈ (read_sizes_static_from_radio l).1, s ≠ "" := by
  induction l with
  | nil => simp [read_sizes_static_from_radio]
  | cons inp rest ih =>
    by_cases hl : radioLabel inp = ""
    · simpa [read_sizes_static_from_radio, hl] using ih
    · intro s hs
      simp only [read_sizes_static_from_radio, if_neg hl, List.mem_cons] at hs
      rcases hs with h | h
      · rw [h]; exact hl
      · exact ih s h

theorem select_avail_sublist (l : List SelectOpt) :
    (read_sizes_static_from_select l).2.Sublist (read_sizes_static_from_select l).1 := by
  induction l with
  | nil => simp [read_sizes_static_from_select]
  | cons opt rest ih =>
    simp only [read_sizes_static_from_select]
    split
    · exact ih
    · split
      · exact ih.cons _
      · exact ih.cons₂ _

theorem select_all_ne (l : List SelectOpt) :
    ∀ s ∈ (read_sizes_static_from_select l).1, s ≠ "" := by
  induction l with
  | nil => simp [read_sizes_static_from_select]
  | cons opt rest ih =>
    simp only [read_sizes_static_from_select]
    split
    · exact ih
    · next hc =>
      intro s hs
      simp only [List.mem_cons] at hs
      rcases hs with h | h
      · rw [h]
        intro hempty
        rw [hempty] at hc
        simp at hc
      · exact ih s h

theorem static_read_sublist (sg : VariantGroup) :
    (static_read sg).2.Sublist (static_read sg).1 := by
  rcases sg with ⟨k, root, label⟩
  cases k
  · exact radio_avail_sublist _
  · exact select_avail_sublist _
  · simp [static_read]

theorem static_read_ne (sg : VariantGroup) :
    ∀ s ∈ (static_read sg).1, s ≠ "" := by
  rcases sg with ⟨k, root, label⟩
  cases k
  · exact radio_all_ne _
  · exact select_all_ne _
  · simp [static_read]

theorem cleanTexts_ne (ts : List String) : ∀ t ∈ cleanTexts ts, t ≠ "" := by
  intro t ht
  obtain ⟨hmem, hcond⟩ := List.mem_filter.mp ht
  intro h
  rw [h] at hcond
  simp at hcond

theorem list_options_ne (g : VariantGroup) (lim : Option Nat) :
    ∀ t ∈ list_options_for_group g lim, t ≠ "" := by
  intro t ht
  rcases g with ⟨k, root, label⟩
  cases k <;> simp only [list_options_for_group] at ht
  · exact cleanTexts_ne _ t (List.mem_filter.mp (List.mem_of_mem_take ht)).1
  · exact cleanTexts_ne _ t (List.mem_of_mem_take ht)
  · exact cleanTexts_ne _ t (List.mem_filter.mp (List.mem_of_mem_take ht)).1

theorem unionSizes_sublist (view : SelState → PageView) (oo : List (List String)) :
    ∀ (ts : List String) (i : Nat) (ps : ProbeSt),
      (unionSizes view oo i ts ps).1.Sublist ts := by
  intro ts
  induction ts with
  | nil => intro i ps; simp [unionSizes]
  | cons t ts ih =>
    intro i ps
    simp only [unionSizes]
    split
    · exact (ih _ _).cons₂ _
    · exact (ih _ _).cons _

theorem simpleSizes_sublist (view : SelState → PageView) :
    ∀ (ts : List String) (i : Nat) (ps : ProbeSt),
      (simpleSizes view i ts ps).1.Sublist ts := by
  intro ts
  induction ts with
  | nil => intro i ps; simp [simpleSizes]
  | cons t ts ih =>
    intro i ps
    simp only [simpleSizes]
    split
    · exact (ih _ _).cons₂ _
    · exact (ih _ _).cons _

/-- C4 amended: the batch writes exactly one record per product; in every
record the available sizes are an ordered sublist of all sizes (hence no
longer), and every recorded size label is non-empty; entries need not be
distinct. -/
theorem claim4_invariants :
    (∀ inputs : List (Except String PageModel × String),
        (runBatch inputs).length = inputs.length)
    ∧ (∀ (m : Bool) (pm : PageModel) (url : String),
        (probe_product_mode m pm url).1.sizes_avail.Sublist
          (probe_product_mode m pm url).1.sizes_all
        ∧ (probe_product_mode m pm url).1.sizes_avail.length ≤
            (probe_product_mode m pm url).1.sizes_all.length
        ∧ ∀ s ∈ (probe_product_mode m pm url).1.sizes_all, s ≠ "")
    ∧ ∀ cause url : String,
        (probe_product_total (Except.error cause) url).1.sizes_all = []
        ∧ (probe_product_total (Except.error cause) url).1.sizes_avail = [] := by
  refine ⟨?_, ?_, ?_⟩
  · intro inputs; simp [runBatch]
  · intro m pm url
    have key : (probe_product_mode m pm url).1.sizes_avail.Sublist
          (probe_product_mode m pm url).1.sizes_all
        ∧ ∀ s ∈ (probe_product_mode m pm url).1.sizes_all, s ≠ "" := by
      cases h : (get_variant_groups pm).filter group_is_size with
      | nil => simp [probe_product_mode, h]
      | cons sg rest =>
        simp only [probe_product_mode, h]
        split
        · split
          · exact ⟨unionSizes_sublist pm.view _ _ 0 _,
              fun s hs => list_options_ne sg none s hs⟩
          · exact ⟨simpleSizes_sublist pm.view _ 0 _,
              fun s hs => list_options_ne sg none s hs⟩
        · exact ⟨static_read_sublist sg, static_read_ne sg⟩
    exact ⟨key.1, key.1.length_le, key.2⟩
  · intro cause url; exact ⟨rfl, rfl⟩

/-- Witness for C4: one row for a one-product batch, and the concrete size
label S read from the S/M/L page is non-empty. -/
theorem claim4_witness :
    (runBatch [(Except.ok pageSML, "u")]).length = 1
    ∧ ("S" : String) ≠ "" :=
  ⟨claim4_invariants.1 [(Except.ok pageSML, "u")],
    (claim4_invariants.2.1 true pageSML "u").2.2 "S" (by decide)⟩

/-- C4 counterexample: two radio inputs sharing the user value S yield a
duplicated sizes_all, so the recorded entries are not distinct. -/
theorem claim4_counterexample :
    (probe_product pageDup "u").1.sizes_all = ["S", "S"]
    ∧ ¬ (probe_product pageDup "u").1.sizes_all.Nodup := by
  exact ⟨by decide, by decide⟩

end SizeMonitor
